import Mathlib

/-!
Verification of the M5StickC-PLUS streaming BMP decoder and color codec.

Shallow embedding of `src/m5graphics.py` (`rgb565`, `rgb565_to_rgb`) and
`src/bmp_loader.py` (`BMPLoader._read_header`, `BMPLoader._read_palette`,
`BMPLoader.load_to_framebuffer`, `BMPLoader.get_image_info`).

A file is modelled as a list of bytes (`List Nat`, each entry < 256 in
practice); the framebuffer is modelled by the ordered list of
`framebuffer.pixel(x, y, color)` calls the decoder makes.
-/

/-- `rgb565` from `m5graphics.py` / `bmp_loader.py`:
pack 8-bit RGB into RGB565 and byte-swap the two result bytes. -/
def rgb565 (r g b : Nat) : Nat :=
  let color := ((r &&& 0xF8) <<< 8) ||| ((g &&& 0xFC) <<< 3) ||| (b >>> 3)
  ((color &&& 0xFF) <<< 8) ||| ((color >>> 8) &&& 0xFF)

/-- `rgb565_to_rgb` from `m5graphics.py`: extract 8-bit channels from a
(non-byte-swapped) RGB565 value by masking and shifting. -/
def rgb565_to_rgb (color : Nat) : Nat × Nat × Nat :=
  ((color >>> 8) &&& 0xF8, (color >>> 3) &&& 0xFC, (color <<< 3) &&& 0xF8)

/-- Little-endian byte-list decoding, as `struct.unpack('<...')` does per field. -/
def bytesLE : List Nat → Nat
  | [] => 0
  | b :: rest => b + 256 * bytesLE rest

/-- `file.seek(pos); file.readinto(buf)` / `file.read(n)` semantics: returns the
`n` bytes at `pos` when that many are available (a short read is reported by
the callers as an error, modelled here as `none`). -/
def readBytes (file : List Nat) (pos n : Nat) : Option (List Nat) :=
  let chunk := (file.drop pos).take n
  if chunk.length = n then some chunk else none

/-- The error taxonomy of `bmp_loader.py` (each constructor corresponds to one
`raise ValueError(...)` site; spec names in parentheses):
`headerTooShort`, `badSignature` (BadSignature), `dibTooShort`,
`unsupportedDepth` (UnsupportedDepth), `compressionUnsupported`
(CompressionUnsupported), `badPlaneCount` (BadPlaneCount),
`truncatedPalette` (TruncatedPalette), `truncatedRow` (TruncatedRow). -/
inductive DecodeError where
  | headerTooShort
  | badSignature
  | dibTooShort
  | unsupportedDepth (bpp : Nat)
  | compressionUnsupported
  | badPlaneCount
  | truncatedPalette
  | truncatedRow (row : Nat)
deriving DecidableEq

/-- The header state set by `BMPLoader._read_header`. -/
structure BMPHeader where
  file_size : Nat
  data_offset : Nat
  width : Nat
  height : Nat
  bits_per_pixel : Nat
  colors_used : Nat
  row_size : Nat
deriving DecidableEq

/-- Row size computation of `_read_header` (lines 71-75): row padded to a
4-byte boundary, 1 byte per pixel at 8 bpp and 3 bytes per pixel at 24 bpp. -/
def rowSizeOf (bits_per_pixel width : Nat) : Nat :=
  if bits_per_pixel = 8 then ((width + 3) / 4) * 4
  else ((width * 3 + 3) / 4) * 4

/-- `BMPLoader._read_header`: read 14 bytes, check length and signature, read
the 40-byte DIB header, unpack `'<LLLHHLLLLLL'`, validate depth, compression
and planes, and compute `row_size`. -/
def read_header (file : List Nat) : Except DecodeError BMPHeader :=
  match readBytes file 0 14 with
  | none => .error .headerTooShort
  | some fh =>
    let signature := bytesLE (fh.take 2)
    let file_size := bytesLE ((fh.drop 2).take 4)
    let data_offset := bytesLE ((fh.drop 10).take 4)
    if signature ≠ 0x4D42 then .error .badSignature
    else
      match readBytes file 14 40 with
      | none => .error .dibTooShort
      | some dib =>
        let width := bytesLE ((dib.drop 4).take 4)
        let height := bytesLE ((dib.drop 8).take 4)
        let planes := bytesLE ((dib.drop 12).take 2)
        let bpp := bytesLE ((dib.drop 14).take 2)
        let compression := bytesLE ((dib.drop 16).take 4)
        let colors_used := bytesLE ((dib.drop 32).take 4)
        if ¬ (bpp = 8 ∨ bpp = 24) then .error (.unsupportedDepth bpp)
        else if compression ≠ 0 then .error .compressionUnsupported
        else if planes ≠ 1 then .error .badPlaneCount
        else .ok { file_size := file_size, data_offset := data_offset,
                   width := width, height := height, bits_per_pixel := bpp,
                   colors_used := colors_used, row_size := rowSizeOf bpp width }

/-- `BMPLoader._read_palette`: for 8-bit images, read
`(colors_used if colors_used > 0 else 256) * 4` bytes starting right after the
two headers (file position 54) and convert each BGRA entry with `rgb565`.
For other depths the palette stays unset (modelled as `[]`). -/
def read_palette (file : List Nat) (h : BMPHeader) : Except DecodeError (List Nat) :=
  if h.bits_per_pixel ≠ 8 then .ok []
  else
    let palette_entries := if h.colors_used > 0 then h.colors_used else 256
    match readBytes file 54 (palette_entries * 4) with
    | none => .error .truncatedPalette
    | some palette_data =>
      .ok ((List.range palette_entries).map (fun i =>
        rgb565 (palette_data.getD (i * 4 + 2) 0)
               (palette_data.getD (i * 4 + 1) 0)
               (palette_data.getD (i * 4) 0)))

/-- Python's `max_width or self.width`: `None` and `0` are both falsy, so both
fall back to the image dimension. -/
def pyOr (m : Option Nat) (w : Nat) : Nat :=
  match m with
  | none => w
  | some v => if v = 0 then w else v

/-- One pixel decode from the row buffer (lines 148-164): 8-bit looks up the
palette with a black fallback for out-of-range indices; 24-bit reads
(B, G, R) at `col*3` and packs with `rgb565`. -/
def decodePixel (bits_per_pixel : Nat) (palette row_buffer : List Nat) (col : Nat) : Nat :=
  if bits_per_pixel = 8 then
    let palette_index := row_buffer.getD col 0
    if palette_index < palette.length then palette.getD palette_index 0 else 0
  else
    rgb565 (row_buffer.getD (col * 3 + 2) 0)
           (row_buffer.getD (col * 3 + 1) 0)
           (row_buffer.getD (col * 3) 0)

/-- The `framebuffer.pixel` calls made for one destination row
(lines 148-171): columns `0 .. load_width-1` at `(dest_x+col, dest_y+row)`. -/
def rowWrites (h : BMPHeader) (palette row_buffer : List Nat)
    (dest_x dest_y row load_width : Nat) : List (Nat × Nat × Nat) :=
  (List.range load_width).map (fun col =>
    (dest_x + col, dest_y + row, decodePixel h.bits_per_pixel palette row_buffer col))

/-- Stored row `i` of the pixel data: `row_size` bytes at
`data_offset + i * row_size` (lines 136-140). -/
def storedRow (file : List Nat) (h : BMPHeader) (i : Nat) : Option (List Nat) :=
  readBytes file (h.data_offset + i * h.row_size) h.row_size

/-- Outcome of a decode: the ordered `framebuffer.pixel` calls that happened,
and the error that aborted the loop (if any). Python returns `False` and keeps
the writes already made; `error = none` corresponds to returning `True`. -/
structure LoadResult where
  writes : List (Nat × Nat × Nat)
  error : Option DecodeError
deriving DecidableEq

/-- The row loop of `load_to_framebuffer` (lines 134-175) over the listed
destination rows: each row is read from stored row `height - 1 - row`
(bottom-up storage) and either decoded into writes or aborts the loop. -/
def decodeRowsFrom (file : List Nat) (h : BMPHeader) (palette : List Nat)
    (dest_x dest_y load_width : Nat) : List Nat → LoadResult
  | [] => { writes := [], error := none }
  | row :: rest =>
    match storedRow file h (h.height - 1 - row) with
    | none => { writes := [], error := some (.truncatedRow row) }
    | some row_buffer =>
      let r := decodeRowsFrom file h palette dest_x dest_y load_width rest
      { writes := rowWrites h palette row_buffer dest_x dest_y row load_width ++ r.writes,
        error := r.error }

/-- `BMPLoader.load_to_framebuffer`: read header and palette, clip the
dimensions with `min(self.width, max_width or self.width)` (same for height),
then run the row loop. -/
def load_to_framebuffer (file : List Nat) (dest_x dest_y : Nat)
    (max_width max_height : Option Nat) : LoadResult :=
  match read_header file with
  | .error e => { writes := [], error := some e }
  | .ok h =>
    match read_palette file h with
    | .error e => { writes := [], error := some e }
    | .ok palette =>
      let load_width := min h.width (pyOr max_width h.width)
      let load_height := min h.height (pyOr max_height h.height)
      decodeRowsFrom file h palette dest_x dest_y load_width (List.range load_height)

/-- The dictionary returned by `BMPLoader.get_image_info`. -/
structure ImageInfo where
  width : Nat
  height : Nat
  bits_per_pixel : Nat
  file_size : Nat
  palette_colors : Nat
deriving DecidableEq

/-- `BMPLoader.get_image_info`: header read and validation only; the palette
size is computed from `colors_used` without reading palette bytes. `none`
models the `return None` taken on any exception. -/
def get_image_info (file : List Nat) : Option ImageInfo :=
  match read_header file with
  | .error _ => none
  | .ok h =>
    some { width := h.width, height := h.height,
           bits_per_pixel := h.bits_per_pixel, file_size := h.file_size,
           palette_colors :=
             if h.bits_per_pixel = 8 then
               (if h.colors_used > 0 then h.colors_used else 256)
             else 0 }

/-! ### Concrete test images -/

/-- A 2x2, 24-bit, uncompressed bitmap: stored (bottom) row
`[BGR of (0,0,255), BGR of (0,255,0)]` (blue, green) and stored (top) row
`[BGR of (255,0,0), BGR of (255,255,255)]` (red, white); `data_offset = 54`,
row stride 8 (6 pixel bytes + 2 padding). -/
def bmp2x2 : List Nat :=
  [0x42, 0x4D, 70, 0, 0, 0, 0, 0, 0, 0, 54, 0, 0, 0] ++
  [40, 0, 0, 0, 2, 0, 0, 0, 2, 0, 0, 0, 1, 0, 24, 0, 0, 0, 0, 0,
   16, 0, 0, 0, 0, 0, 0, 0, 0, 0, 0, 0, 0, 0, 0, 0, 0, 0, 0, 0] ++
  [255, 0, 0, 0, 255, 0, 0, 0] ++
  [0, 0, 255, 255, 255, 255, 0, 0]

/-- The header `_read_header` produces for `bmp2x2`. -/
def hdr2x2 : BMPHeader :=
  { file_size := 70, data_offset := 54, width := 2, height := 2,
    bits_per_pixel := 24, colors_used := 0, row_size := 8 }

/-- A 1x1, 8-bit bitmap with a single palette entry (B=10, G=20, R=30) and
pixel byte 200, an out-of-range palette index; `data_offset = 58`. -/
def bmp8 : List Nat :=
  [0x42, 0x4D, 62, 0, 0, 0, 0, 0, 0, 0, 58, 0, 0, 0] ++
  [40, 0, 0, 0, 1, 0, 0, 0, 1, 0, 0, 0, 1, 0, 8, 0, 0, 0, 0, 0,
   4, 0, 0, 0, 0, 0, 0, 0, 0, 0, 0, 0, 1, 0, 0, 0, 0, 0, 0, 0] ++
  [10, 20, 30, 0] ++
  [200, 0, 0, 0]

/-- The header `_read_header` produces for `bmp8`. -/
def hdr8 : BMPHeader :=
  { file_size := 62, data_offset := 58, width := 1, height := 1,
    bits_per_pixel := 8, colors_used := 1, row_size := 4 }

/-! ### C1 -/

/-- C1: the claimed round-trip `rgb565_to_rgb (rgb565 r g b)` within the
quantization step FAILS on the code: `rgb565` byte-swaps its result but
`rgb565_to_rgb` does not undo the swap, so pure red (255,0,0) comes back as
(0, 28, 192), off by 255 on the red channel (far beyond the claimed 4). -/
theorem c1_color_roundtrip_fails_at_pure_red :
    rgb565_to_rgb (rgb565 255 0 0) = (0, 28, 192) ∧
    4 < 255 - (rgb565_to_rgb (rgb565 255 0 0)).1 := by
  decide

/-! ### C7 -/

/-- C7: the row stride computed by `_read_header` equals
`ceil(width * bytesPerPixelGroup / 4) * 4` (in Nat form `((w*g + 3) / 4) * 4`)
with group size 1 at 8 bpp and 3 at 24 bpp; it is the least multiple of 4
that holds one row, hence always a multiple of 4; and the four particular
values of the spec hold. -/
theorem c7_row_stride : ∀ width : Nat,
    (rowSizeOf 8 width = ((width * 1 + 3) / 4) * 4 ∧
      rowSizeOf 24 width = ((width * 3 + 3) / 4) * 4) ∧
    (4 ∣ rowSizeOf 8 width ∧ width * 1 ≤ rowSizeOf 8 width ∧
      rowSizeOf 8 width < width * 1 + 4) ∧
    (4 ∣ rowSizeOf 24 width ∧ width * 3 ≤ rowSizeOf 24 width ∧
      rowSizeOf 24 width < width * 3 + 4) ∧
    rowSizeOf 24 1 = 4 ∧ rowSizeOf 24 2 = 8 ∧ rowSizeOf 8 4 = 4 ∧
    rowSizeOf 8 5 = 8 := by
  intro width
  simp only [rowSizeOf]
  norm_num
  omega

/-! ### C10 -/

/-- C10: a caller-supplied clip bound of 0 is treated as absent (Python
`max_width or self.width` takes `self.width` for both `None` and `0`), so the
whole image dimension is loaded rather than a zero-size region. -/
theorem c10_zero_clip_means_no_clip :
    ∀ (file : List Nat) (dest_x dest_y : Nat) (mw mh : Option Nat) (w : Nat),
    pyOr (some 0) w = w ∧
    min w (pyOr (some 0) w) = w ∧
    load_to_framebuffer file dest_x dest_y (some 0) mh =
      load_to_framebuffer file dest_x dest_y none mh ∧
    load_to_framebuffer file dest_x dest_y mw (some 0) =
      load_to_framebuffer file dest_x dest_y mw none := by
  intro file dx dy mw mh w
  refine ⟨rfl, Nat.min_self w, ?_, ?_⟩ <;>
  · cases hh : read_header file with
    | error e => simp [load_to_framebuffer, hh]
    | ok h =>
      cases hp : read_palette file h with
      | error e => simp [load_to_framebuffer, hh, hp]
      | ok pal => simp [load_to_framebuffer, hh, hp, pyOr]

/-! ### Helper lemmas about the row loop -/

theorem rowWrites_length (h : BMPHeader) (palette row_buffer : List Nat)
    (dest_x dest_y row load_width : Nat) :
    (rowWrites h palette row_buffer dest_x dest_y row load_width).length = load_width := by
  simp [rowWrites]

/-- The writes of a fully successful row loop, row by row. -/
def expectedWrites (file : List Nat) (h : BMPHeader) (palette : List Nat)
    (dest_x dest_y load_width : Nat) : List Nat → List (Nat × Nat × Nat)
  | [] => []
  | row :: rest =>
    rowWrites h palette ((storedRow file h (h.height - 1 - row)).getD [])
        dest_x dest_y row load_width
      ++ expectedWrites file h palette dest_x dest_y load_width rest

theorem expectedWrites_append (file : List Nat) (h : BMPHeader) (palette : List Nat)
    (dest_x dest_y load_width : Nat) (rows₁ rows₂ : List Nat) :
    expectedWrites file h palette dest_x dest_y load_width (rows₁ ++ rows₂)
      = expectedWrites file h palette dest_x dest_y load_width rows₁
        ++ expectedWrites file h palette dest_x dest_y load_width rows₂ := by
  induction rows₁ with
  | nil => rfl
  | cons a t ih => simp [expectedWrites, ih]

theorem decodeRowsFrom_writes_eq (file : List Nat) (h : BMPHeader) (palette : List Nat)
    (dest_x dest_y load_width : Nat) :
    ∀ rows : List Nat,
      (decodeRowsFrom file h palette dest_x dest_y load_width rows).error = none →
      (decodeRowsFrom file h palette dest_x dest_y load_width rows).writes
        = expectedWrites file h palette dest_x dest_y load_width rows := by
  intro rows
  induction rows with
  | nil => intro _; rfl
  | cons row rest ih =>
    intro hsucc
    cases hb : storedRow file h (h.height - 1 - row) with
    | none => simp [decodeRowsFrom, hb] at hsucc
    | some buf =>
      simp only [decodeRowsFrom, hb] at hsucc ⊢
      rw [expectedWrites, hb]
      simp only [Option.getD_some]
      rw [ih hsucc]

theorem decodeRowsFrom_stored_isSome (file : List Nat) (h : BMPHeader) (palette : List Nat)
    (dest_x dest_y load_width : Nat) :
    ∀ rows : List Nat,
      (decodeRowsFrom file h palette dest_x dest_y load_width rows).error = none →
      ∀ row ∈ rows, (storedRow file h (h.height - 1 - row)).isSome := by
  intro rows
  induction rows with
  | nil => intro _ row hrow; simp at hrow
  | cons a rest ih =>
    intro hsucc row hrow
    cases hb : storedRow file h (h.height - 1 - a) with
    | none => simp [decodeRowsFrom, hb] at hsucc
    | some buf =>
      simp only [decodeRowsFrom, hb] at hsucc
      rcases List.mem_cons.mp hrow with hra | hrr
      · subst hra; simp [hb]
      · exact ih hsucc row hrr

theorem expectedWrites_slice (file : List Nat) (h : BMPHeader) (palette : List Nat)
    (dest_x dest_y load_width : Nat) :
    ∀ (rows : List Nat) (i r : Nat), rows[i]? = some r →
      ((expectedWrites file h palette dest_x dest_y load_width rows).drop
          (i * load_width)).take load_width
        = rowWrites h palette ((storedRow file h (h.height - 1 - r)).getD [])
            dest_x dest_y r load_width := by
  intro rows
  induction rows with
  | nil => intro i r hir; simp at hir
  | cons a t ih =>
    intro i r hir
    cases i with
    | zero =>
      simp only [List.getElem?_cons_zero, Option.some.injEq] at hir
      subst hir
      simp only [expectedWrites, Nat.zero_mul, List.drop_zero]
      exact List.take_left'
        (rowWrites_length h palette _ dest_x dest_y a load_width)
    | succ j =>
      simp only [List.getElem?_cons_succ] at hir
      simp only [expectedWrites]
      rw [show (j + 1) * load_width
            = (rowWrites h palette ((storedRow file h (h.height - 1 - a)).getD [])
                dest_x dest_y a load_width).length + j * load_width by
          rw [rowWrites_length]; ring]
      rw [List.drop_append]
      exact ih j r hir

/-! ### Counting lemmas -/

theorem countP_range_hit (dest_x yval x y n : Nat) :
    (List.range n).countP (fun c => decide (dest_x + c = x ∧ yval = y))
      = if y = yval ∧ dest_x ≤ x ∧ x < dest_x + n then 1 else 0 := by
  induction n with
  | zero =>
    simp only [List.range_zero, List.countP_nil]
    split_ifs <;> omega
  | succ m ih =>
    rw [List.range_succ, List.countP_append, ih]
    simp only [List.countP_cons, List.countP_nil, decide_eq_true_eq]
    split_ifs <;> omega

theorem countP_rowWrites (h : BMPHeader) (palette row_buffer : List Nat)
    (dest_x dest_y row load_width x y : Nat) :
    (rowWrites h palette row_buffer dest_x dest_y row load_width).countP
        (fun t => decide (t.1 = x ∧ t.2.1 = y))
      = if y = dest_y + row ∧ dest_x ≤ x ∧ x < dest_x + load_width then 1 else 0 := by
  rw [rowWrites, List.countP_map]
  exact countP_range_hit dest_x (dest_y + row) x y load_width

theorem countP_expectedWrites_range (file : List Nat) (h : BMPHeader) (palette : List Nat)
    (dest_x dest_y load_width load_height x y : Nat) :
    (expectedWrites file h palette dest_x dest_y load_width
        (List.range load_height)).countP (fun t => decide (t.1 = x ∧ t.2.1 = y))
      = if dest_x ≤ x ∧ x < dest_x + load_width ∧ dest_y ≤ y ∧ y < dest_y + load_height
        then 1 else 0 := by
  induction load_height with
  | zero =>
    simp only [List.range_zero, expectedWrites, List.countP_nil]
    split_ifs <;> omega
  | succ m ih =>
    rw [List.range_succ, expectedWrites_append, List.countP_append, ih]
    simp only [expectedWrites, List.append_nil]
    rw [countP_rowWrites]
    split_ifs <;> omega

theorem load_eq_decodeRows (file : List Nat) (h : BMPHeader) (palette : List Nat)
    (dest_x dest_y : Nat) (max_width max_height : Option Nat)
    (hh : read_header file = .ok h) (hp : read_palette file h = .ok palette) :
    load_to_framebuffer file dest_x dest_y max_width max_height
      = decodeRowsFrom file h palette dest_x dest_y
          (min h.width (pyOr max_width h.width))
          (List.range (min h.height (pyOr max_height h.height))) := by
  simp [load_to_framebuffer, hh, hp]

/-! ### C2 -/

/-- C2: on a successful decode, the destination row written at vertical offset
`row` (with `0 ≤ row < loadHeight`) is decoded from the stored source row at
index `height - 1 - row`: the slice of writes for that destination row equals
`rowWrites` applied to the bytes of stored row `height - 1 - row`. -/
theorem c2_bottom_up_row_mapping (file : List Nat) (h : BMPHeader) (palette : List Nat)
    (dest_x dest_y : Nat) (max_width max_height : Option Nat) (row : Nat)
    (hh : read_header file = .ok h)
    (hp : read_palette file h = .ok palette)
    (hsucc : (load_to_framebuffer file dest_x dest_y max_width max_height).error = none)
    (hrow : row < min h.height (pyOr max_height h.height)) :
    storedRow file h (h.height - 1 - row) ≠ none ∧
    ((load_to_framebuffer file dest_x dest_y max_width max_height).writes.drop
        (row * min h.width (pyOr max_width h.width))).take
        (min h.width (pyOr max_width h.width))
      = rowWrites h palette ((storedRow file h (h.height - 1 - row)).getD [])
          dest_x dest_y row (min h.width (pyOr max_width h.width)) := by
  rw [load_eq_decodeRows file h palette dest_x dest_y max_width max_height hh hp]
    at hsucc ⊢
  constructor
  · exact Option.ne_none_iff_isSome.mpr
      (decodeRowsFrom_stored_isSome _ _ _ _ _ _ _ hsucc row (List.mem_range.mpr hrow))
  · rw [decodeRowsFrom_writes_eq _ _ _ _ _ _ _ hsucc]
    exact expectedWrites_slice _ _ _ _ _ _ _ row row (List.getElem?_range hrow)

/-- C2 witness: for the concrete 2-row image `bmp2x2`, the first written
destination row (row 0) is the slice decoded from stored row index 1, the
last stored row. -/
theorem c2_bottom_up_row_mapping_witness :
    storedRow bmp2x2 hdr2x2 1 ≠ none ∧
    ((load_to_framebuffer bmp2x2 0 0 none none).writes.drop 0).take 2
      = rowWrites hdr2x2 [] ((storedRow bmp2x2 hdr2x2 1).getD []) 0 0 0 2 :=
  c2_bottom_up_row_mapping bmp2x2 hdr2x2 [] 0 0 none none 0 rfl rfl rfl (by decide)

/-! ### C4 -/

/-- C4: on a successful decode, every pixel in the clipped region
`[destX, destX+loadWidth) x [destY, destY+loadHeight)` is written exactly once
and nothing outside it is ever written (the count of writes at any `(x, y)` is
1 inside the region and 0 outside), where `loadWidth`/`loadHeight` are the
code's `min(width, maxWidth or width)`; for caller-supplied nonzero bounds
this equals the claim's `min(imageWidth, maxWidth)`. -/
theorem c4_clipped_region_written_exactly_once (file : List Nat) (h : BMPHeader)
    (dest_x dest_y : Nat) (max_width max_height : Option Nat) (x y w w' : Nat)
    (hh : read_header file = .ok h)
    (hsucc : (load_to_framebuffer file dest_x dest_y max_width max_height).error = none) :
    ((load_to_framebuffer file dest_x dest_y max_width max_height).writes.countP
        (fun t => decide (t.1 = x ∧ t.2.1 = y))
      = if dest_x ≤ x ∧ x < dest_x + min h.width (pyOr max_width h.width) ∧
            dest_y ≤ y ∧ y < dest_y + min h.height (pyOr max_height h.height)
        then 1 else 0) ∧
    (max_width = some w → w ≠ 0 →
      min h.width (pyOr max_width h.width) = min h.width w) ∧
    (max_height = some w' → w' ≠ 0 →
      min h.height (pyOr max_height h.height) = min h.height w') := by
  refine ⟨?_, ?_, ?_⟩
  · cases hp : read_palette file h with
    | error e => simp [load_to_framebuffer, hh, hp] at hsucc
    | ok palette =>
      rw [load_eq_decodeRows file h palette dest_x dest_y max_width max_height hh hp]
        at hsucc ⊢
      rw [decodeRowsFrom_writes_eq _ _ _ _ _ _ _ hsucc, countP_expectedWrites_range]
  · intro he hw; subst he; simp [pyOr, hw]
  · intro he hw; subst he; simp [pyOr, hw]

/-- C4 witness: clipping `bmp2x2` (width 2) to `maxWidth = 1` writes the pixel
at `(0, 0)` exactly once. -/
theorem c4_clipped_region_written_exactly_once_witness :
    (load_to_framebuffer bmp2x2 0 0 (some 1) (some 2)).writes.countP
        (fun t => decide (t.1 = 0 ∧ t.2.1 = 0))
      = if 0 ≤ 0 ∧ 0 < 0 + 1 ∧ 0 ≤ 0 ∧ 0 < 0 + 2 then 1 else 0 :=
  (c4_clipped_region_written_exactly_once bmp2x2 hdr2x2 0 0 (some 1) (some 2)
    0 0 1 2 rfl rfl).1

/-! ### C3 -/

/-- C3 counterexample: decoding the spec's synthetic 2x2 24-bit bitmap does
NOT produce the setPixel list the claim states; the claimed list has the two
destination rows swapped relative to the bottom-up storage order. -/
theorem c3_claimed_scenario_false :
    (load_to_framebuffer bmp2x2 0 0 none none).writes
      ≠ [(0, 0, rgb565 0 0 255), (1, 0, rgb565 0 255 0),
         (0, 1, rgb565 255 0 0), (1, 1, rgb565 255 255 255)] := by
  decide

/-- C3 amended: a 24-bit pixel at column `col` is read from the row buffer as
bytes (B, G, R) at offsets `col*3`, `col*3+1`, `col*3+2` and written as
`packColor(R, G, B)`; decoding the synthetic 2x2 bitmap at (0,0) with no clip
yields exactly the writes (0,0)=packColor(255,0,0), (1,0)=packColor(255,255,255),
(0,1)=packColor(0,0,255), (1,1)=packColor(0,255,0) and succeeds. -/
theorem c3_bgr_pixel_order_and_scenario (h : BMPHeader)
    (palette row_buffer : List Nat) (dest_x dest_y row load_width col : Nat)
    (h24 : h.bits_per_pixel = 24) (hcol : col < load_width) :
    (rowWrites h palette row_buffer dest_x dest_y row load_width)[col]?
      = some (dest_x + col, dest_y + row,
          rgb565 (row_buffer.getD (col * 3 + 2) 0)
                 (row_buffer.getD (col * 3 + 1) 0)
                 (row_buffer.getD (col * 3) 0)) ∧
    load_to_framebuffer bmp2x2 0 0 none none
      = { writes := [(0, 0, rgb565 255 0 0), (1, 0, rgb565 255 255 255),
                     (0, 1, rgb565 0 0 255), (1, 1, rgb565 0 255 0)],
          error := none } := by
  constructor
  · simp [rowWrites, List.getElem?_range hcol, decodePixel, h24]
  · decide

/-- C3 witness: the amended statement at the concrete top stored row of
`bmp2x2` (buffer `[0,0,255, 255,255,255, 0,0]`), column 0. -/
theorem c3_bgr_pixel_order_and_scenario_witness :
    (rowWrites hdr2x2 [] [0, 0, 255, 255, 255, 255, 0, 0] 0 0 0 2)[0]?
      = some (0, 0, rgb565 255 0 0) ∧
    load_to_framebuffer bmp2x2 0 0 none none
      = { writes := [(0, 0, rgb565 255 0 0), (1, 0, rgb565 255 255 255),
                     (0, 1, rgb565 0 0 255), (1, 1, rgb565 0 255 0)],
          error := none } :=
  c3_bgr_pixel_order_and_scenario hdr2x2 [] [0, 0, 255, 255, 255, 255, 0, 0]
    0 0 0 2 0 rfl (by decide)

/-! ### C6 -/

/-- C6: in a successful 8-bit decode, the pixel of the clipped region at
(row, col) — flat write index `row*loadWidth + col` — is `palette[index]` when
the palette-index byte `index` is in range and the fallback black (0)
otherwise; the lookup is guarded by `index < len(palette)`, so no
out-of-bounds palette access occurs and no error is raised. -/
theorem c6_palette_index_fallback (file : List Nat) (h : BMPHeader) (palette : List Nat)
    (dest_x dest_y : Nat) (max_width max_height : Option Nat) (row col : Nat)
    (hh : read_header file = .ok h)
    (h8 : h.bits_per_pixel = 8)
    (hp : read_palette file h = .ok palette)
    (hsucc : (load_to_framebuffer file dest_x dest_y max_width max_height).error = none)
    (hrow : row < min h.height (pyOr max_height h.height))
    (hcol : col < min h.width (pyOr max_width h.width)) :
    (load_to_framebuffer file dest_x dest_y max_width
        max_height).writes[row * min h.width (pyOr max_width h.width) + col]?
      = some (dest_x + col, dest_y + row,
          if ((storedRow file h (h.height - 1 - row)).getD []).getD col 0
              < palette.length
          then palette.getD
            (((storedRow file h (h.height - 1 - row)).getD []).getD col 0) 0
          else 0) := by
  rw [load_eq_decodeRows file h palette dest_x dest_y max_width max_height hh hp]
    at hsucc ⊢
  rw [decodeRowsFrom_writes_eq _ _ _ _ _ _ _ hsucc]
  rw [← List.getElem?_drop]
  rw [← List.getElem?_take_of_lt hcol]
  rw [expectedWrites_slice _ _ _ _ _ _ _ row row (List.getElem?_range hrow)]
  simp [rowWrites, List.getElem?_range hcol, decodePixel, h8]

/-- C6 witness: `bmp8` has one palette entry and its single pixel byte is 200,
an out-of-range index; the decode writes black (0) at (0,0) without error. -/
theorem c6_palette_index_fallback_witness :
    (load_to_framebuffer bmp8 0 0 none none).writes[0]? = some (0, 0, 0) :=
  c6_palette_index_fallback bmp8 hdr8 [rgb565 30 20 10] 0 0 none none 0 0
    rfl rfl rfl rfl (by decide) (by decide)

/-! ### Header parsing lemmas -/

theorem readBytes_of_le (file : List Nat) (pos n : Nat)
    (hlen : pos + n ≤ file.length) :
    readBytes file pos n = some ((file.drop pos).take n) := by
  have hc : ((file.drop pos).take n).length = n := by
    rw [List.length_take, List.length_drop]; omega
  simp only [readBytes]
  rw [if_pos hc]

theorem readBytes_none_of_lt (file : List Nat) (pos n : Nat)
    (hn : 0 < n) (hlen : file.length < pos + n) :
    readBytes file pos n = none := by
  have hc : ((file.drop pos).take n).length ≠ n := by
    rw [List.length_take, List.length_drop]; omega
  simp only [readBytes]
  rw [if_neg hc]

theorem take_fourteen_take_two (file : List Nat) :
    (file.take 14).take 2 = file.take 2 := by
  rw [List.take_take]
  norm_num

/-- The bits-per-pixel field exactly as `_read_header` unpacks it: bytes 14-15
of the 40-byte DIB chunk, i.e. bytes 28-29 of the file. -/
def parsedBpp (file : List Nat) : Nat :=
  bytesLE ((((file.drop 14).take 40).drop 14).take 2)

/-- The compression field as `_read_header` unpacks it (file bytes 30-33). -/
def parsedCompression (file : List Nat) : Nat :=
  bytesLE ((((file.drop 14).take 40).drop 16).take 4)

/-- The plane-count field as `_read_header` unpacks it (file bytes 26-27). -/
def parsedPlanes (file : List Nat) : Nat :=
  bytesLE ((((file.drop 14).take 40).drop 12).take 2)

theorem read_header_bad_signature (file : List Nat) (hlen : 14 ≤ file.length)
    (hsig : bytesLE (file.take 2) ≠ 0x4D42) :
    read_header file = .error .badSignature := by
  unfold read_header
  rw [readBytes_of_le file 0 14 (by omega), List.drop_zero]
  simp [take_fourteen_take_two, hsig]

theorem read_header_bad_depth (file : List Nat) (hlen : 54 ≤ file.length)
    (hsig : bytesLE (file.take 2) = 0x4D42)
    (hbpp : ¬ (parsedBpp file = 8 ∨ parsedBpp file = 24)) :
    read_header file = .error (.unsupportedDepth (parsedBpp file)) := by
  unfold read_header
  rw [readBytes_of_le file 0 14 (by omega), readBytes_of_le file 14 40 (by omega),
    List.drop_zero]
  rw [parsedBpp] at hbpp ⊢
  push_neg at hbpp
  simp [take_fourteen_take_two, hsig, hbpp.1, hbpp.2]

theorem read_header_bad_compression (file : List Nat) (hlen : 54 ≤ file.length)
    (hsig : bytesLE (file.take 2) = 0x4D42)
    (hbpp : parsedBpp file = 8 ∨ parsedBpp file = 24)
    (hcomp : parsedCompression file ≠ 0) :
    read_header file = .error .compressionUnsupported := by
  unfold read_header
  rw [readBytes_of_le file 0 14 (by omega), readBytes_of_le file 14 40 (by omega),
    List.drop_zero]
  rw [parsedBpp] at hbpp
  rw [parsedCompression] at hcomp
  rcases hbpp with hb | hb <;> simp [take_fourteen_take_two, hsig, hb, hcomp]

theorem read_header_bad_planes (file : List Nat) (hlen : 54 ≤ file.length)
    (hsig : bytesLE (file.take 2) = 0x4D42)
    (hbpp : parsedBpp file = 8 ∨ parsedBpp file = 24)
    (hcomp : parsedCompression file = 0)
    (hpl : parsedPlanes file ≠ 1) :
    read_header file = .error .badPlaneCount := by
  unfold read_header
  rw [readBytes_of_le file 0 14 (by omega), readBytes_of_le file 14 40 (by omega),
    List.drop_zero]
  rw [parsedBpp] at hbpp
  rw [parsedCompression] at hcomp
  rw [parsedPlanes] at hpl
  rcases hbpp with hb | hb <;> simp [take_fourteen_take_two, hsig, hb, hcomp, hpl]

/-! ### C5 -/

/-- C5: inputs failing validation — wrong two-byte signature (given a complete
14-byte header), unsupported bit depth, nonzero compression, or a plane count
other than 1 (given a complete 54-byte header pair) — make the decode fail
with the corresponding error and produce no `framebuffer.pixel` call at all. -/
theorem c5_validation_failures_write_nothing (file : List Nat) (dest_x dest_y : Nat)
    (max_width max_height : Option Nat) :
    (14 ≤ file.length → bytesLE (file.take 2) ≠ 0x4D42 →
      load_to_framebuffer file dest_x dest_y max_width max_height
        = { writes := [], error := some .badSignature }) ∧
    (54 ≤ file.length → bytesLE (file.take 2) = 0x4D42 →
      ¬ (parsedBpp file = 8 ∨ parsedBpp file = 24) →
      load_to_framebuffer file dest_x dest_y max_width max_height
        = { writes := [], error := some (.unsupportedDepth (parsedBpp file)) }) ∧
    (54 ≤ file.length → bytesLE (file.take 2) = 0x4D42 →
      (parsedBpp file = 8 ∨ parsedBpp file = 24) → parsedCompression file ≠ 0 →
      load_to_framebuffer file dest_x dest_y max_width max_height
        = { writes := [], error := some .compressionUnsupported }) ∧
    (54 ≤ file.length → bytesLE (file.take 2) = 0x4D42 →
      (parsedBpp file = 8 ∨ parsedBpp file = 24) → parsedCompression file = 0 →
      parsedPlanes file ≠ 1 →
      load_to_framebuffer file dest_x dest_y max_width max_height
        = { writes := [], error := some .badPlaneCount }) := by
  refine ⟨?_, ?_, ?_, ?_⟩
  · intro hlen hsig
    simp [load_to_framebuffer, read_header_bad_signature file hlen hsig]
  · intro hlen hsig hbpp
    simp [load_to_framebuffer, read_header_bad_depth file hlen hsig hbpp]
  · intro hlen hsig hbpp hcomp
    simp [load_to_framebuffer, read_header_bad_compression file hlen hsig hbpp hcomp]
  · intro hlen hsig hbpp hcomp hpl
    simp [load_to_framebuffer, read_header_bad_planes file hlen hsig hbpp hcomp hpl]

/-- A 14-byte input whose first two bytes are not the BMP magic. -/
def badSigFile : List Nat := [0, 0, 0, 0, 0, 0, 0, 0, 0, 0, 0, 0, 0, 0]

/-- `bmp2x2` with the bits-per-pixel field (file byte 28) altered to 16. -/
def bmp16 : List Nat := bmp2x2.set 28 16

/-- `bmp2x2` with the compression field (file byte 30) altered to 1. -/
def bmpBadComp : List Nat := bmp2x2.set 30 1

/-- `bmp2x2` with the plane-count field (file byte 26) altered to 2. -/
def bmpBadPlanes : List Nat := bmp2x2.set 26 2

/-- C5 witness: all four rejection cases at concrete inputs; each fails with
its error and writes nothing. -/
theorem c5_validation_failures_write_nothing_witness :
    load_to_framebuffer badSigFile 0 0 none none
      = { writes := [], error := some .badSignature } ∧
    load_to_framebuffer bmp16 0 0 none none
      = { writes := [], error := some (.unsupportedDepth 16) } ∧
    load_to_framebuffer bmpBadComp 0 0 none none
      = { writes := [], error := some .compressionUnsupported } ∧
    load_to_framebuffer bmpBadPlanes 0 0 none none
      = { writes := [], error := some .badPlaneCount } :=
  ⟨(c5_validation_failures_write_nothing badSigFile 0 0 none none).1
      (by decide) (by decide),
   (c5_validation_failures_write_nothing bmp16 0 0 none none).2.1
      (by decide) (by decide) (by decide),
   (c5_validation_failures_write_nothing bmpBadComp 0 0 none none).2.2.1
      (by decide) (by decide) (by decide) (by decide),
   (c5_validation_failures_write_nothing bmpBadPlanes 0 0 none none).2.2.2
      (by decide) (by decide) (by decide) (by decide) (by decide)⟩

/-! ### C9 -/

theorem readBytes_congr_of_take (file g : List Nat) (k pos n : Nat)
    (hk : file.take k = g.take k) (hpn : pos + n ≤ k) :
    readBytes file pos n = readBytes g pos n := by
  have key : ∀ l : List Nat, ((l.take k).drop pos).take n = (l.drop pos).take n := by
    intro l
    rw [List.drop_take, List.take_take]
    congr 1
    exact inf_eq_left.mpr (by omega)
  unfold readBytes
  rw [← key file, ← key g, hk]

theorem read_header_congr_of_take54 (file g : List Nat)
    (hk : file.take 54 = g.take 54) :
    read_header file = read_header g := by
  unfold read_header
  rw [readBytes_congr_of_take file g 54 0 14 hk (by omega),
    readBytes_congr_of_take file g 54 14 40 hk (by omega)]

/-- C9: `get_image_info` performs only header reading and validation plus
palette-size computation: its result is determined by the first 54 bytes of
the source alone (so it never reads palette or pixel bytes), it involves no
surface and produces no pixel write (its result type carries no writes, as the
code touches no framebuffer), and on success it returns exactly
`{width, height, bits_per_pixel, file_size, palette_colors}`. -/
theorem c9_info_only_reads_header (file g : List Nat) (h : BMPHeader) :
    (file.take 54 = g.take 54 → get_image_info file = get_image_info g) ∧
    (read_header file = .ok h →
      get_image_info file
        = some { width := h.width, height := h.height,
                 bits_per_pixel := h.bits_per_pixel, file_size := h.file_size,
                 palette_colors :=
                   if h.bits_per_pixel = 8 then
                     (if h.colors_used > 0 then h.colors_used else 256)
                   else 0 }) := by
  constructor
  · intro hk
    unfold get_image_info
    rw [read_header_congr_of_take54 file g hk]
  · intro hh
    simp [get_image_info, hh]

/-- C9 witness: appending pixel-area bytes does not change `get_image_info`,
and its success record on `bmp2x2` is exactly the header data. -/
theorem c9_info_only_reads_header_witness :
    get_image_info bmp2x2 = get_image_info (bmp2x2 ++ [99]) ∧
    get_image_info bmp2x2
      = some { width := 2, height := 2, bits_per_pixel := 24, file_size := 70,
               palette_colors := 0 } :=
  ⟨(c9_info_only_reads_header bmp2x2 (bmp2x2 ++ [99]) hdr2x2).1 (by decide),
   (c9_info_only_reads_header bmp2x2 (bmp2x2 ++ [99]) hdr2x2).2 rfl⟩

/-! ### C8 -/

/-- C8: for a valid 8-bit header, the palette build reads exactly 4 bytes per
entry starting at byte 54, has exactly `colorsUsed` entries — 256 when
`colorsUsed = 0` — and fails with TruncatedPalette exactly when fewer than
`54 + 4*entries` bytes exist; `get_image_info` reports the same entry count
(without reading palette bytes, per the C9 theorem). -/
theorem c8_palette_count (file : List Nat) (h : BMPHeader)
    (hh : read_header file = .ok h) (h8 : h.bits_per_pixel = 8) :
    ((read_palette file h).toOption.map List.length
      = if 54 + (if h.colors_used > 0 then h.colors_used else 256) * 4 ≤ file.length
        then some (if h.colors_used > 0 then h.colors_used else 256)
        else none) ∧
    (read_palette file h = .error .truncatedPalette ↔
      file.length < 54 + (if h.colors_used > 0 then h.colors_used else 256) * 4) ∧
    get_image_info file
      = some { width := h.width, height := h.height, bits_per_pixel := 8,
               file_size := h.file_size,
               palette_colors := if h.colors_used > 0 then h.colors_used else 256 } := by
  have hE : (0 : Nat) < (if h.colors_used > 0 then h.colors_used else 256) * 4 := by
    split_ifs with hcu <;> omega
  set E := (if h.colors_used > 0 then h.colors_used else 256) with hEdef
  refine ⟨?_, ?_, by simp [get_image_info, hh, h8]⟩
  · by_cases hfit : 54 + E * 4 ≤ file.length
    · simp [read_palette, h8, ← hEdef, Except.toOption,
        readBytes_of_le file 54 (E * 4) hfit, hfit]
    · simp [read_palette, h8, ← hEdef, Except.toOption,
        readBytes_none_of_lt file 54 (E * 4) hE (by omega), hfit]
  · by_cases hfit : 54 + E * 4 ≤ file.length
    · have hn : ¬ (file.length < 54 + E * 4) := by omega
      simp [read_palette, h8, ← hEdef, readBytes_of_le file 54 (E * 4) hfit, hn]
    · have hy : file.length < 54 + E * 4 := by omega
      simp [read_palette, h8, ← hEdef,
        readBytes_none_of_lt file 54 (E * 4) hE (by omega), hy]

/-- C8 witness: `bmp8` declares `colorsUsed = 1`; the palette read yields one
entry, is not truncated, and `get_image_info` reports one palette color. -/
theorem c8_palette_count_witness :
    ((read_palette bmp8 hdr8).toOption.map List.length
      = if 54 + 1 * 4 ≤ bmp8.length then some 1 else none) ∧
    (read_palette bmp8 hdr8 = .error .truncatedPalette ↔
      bmp8.length < 54 + 1 * 4) ∧
    get_image_info bmp8
      = some { width := 1, height := 1, bits_per_pixel := 8, file_size := 62,
               palette_colors := 1 } :=
  c8_palette_count bmp8 hdr8 rfl rfl
